import Mathlib

/-!
Verification development for the query classification, orchestration and
response-cache engine of `app.py` (a Flask question-answering service).

Python strings are modelled as `List Char` (`PyStr`), Python dicts that the
code uses as keyed stores are modelled as association lists, and every
network call (Gemini, WolframAlpha, OpenWeatherMap, NewsAPI, Oxford
dictionary, Wikipedia, DuckDuckGo) is abstracted as an oracle field of an
`Env` record, matching the spec's "Provider Adapter (external collaborator)"
boundary.  HTML/markup formatting helpers (`format_text`,
`format_wikipedia_content`) are likewise abstracted as `Env` functions: the
spec declares "HTML/markup presentation" out of scope and no claim depends
on them.  Wall-clock values (`datetime.now()` and its `strftime`
renderings) are `Env` fields as well.  Everything else is translated
directly from the source.
-/

/-- Python strings are modelled as lists of characters. -/
abbrev PyStr := List Char

/-- Conversion from a Lean string literal to the `PyStr` model. -/
def lit (s : String) : PyStr := s.data

/-- Model of Python `str.lower()` (the source only lowercases ASCII text). -/
def pyLower (s : PyStr) : PyStr := s.map Char.toLower

/-- Model of Python `str.strip()`: drop whitespace from both ends. -/
def pyStrip (s : PyStr) : PyStr :=
  ((s.dropWhile Char.isWhitespace).reverse.dropWhile Char.isWhitespace).reverse

/-- Model of the Python substring test `pat in s`. -/
def containsSub : PyStr → PyStr → Bool
  | [], pat => pat.isEmpty
  | c :: rest, pat => pat.isPrefixOf (c :: rest) || containsSub rest pat

/-- Model of Python `s.replace(pat, "")`: remove every (non-overlapping,
left-to-right) occurrence of `pat` from `s`. -/
def removeAll (pat : PyStr) : PyStr → PyStr
  | [] => []
  | c :: rest =>
    if h : pat ≠ [] ∧ pat.isPrefixOf (c :: rest) then
      removeAll pat ((c :: rest).drop pat.length)
    else
      c :: removeAll pat rest
termination_by s => s.length
decreasing_by
  · simp only [List.length_drop, List.length_cons]
    have hp : 1 ≤ pat.length := List.length_pos.mpr h.1
    omega
  · simp

/-- Model of Python `s.split()` (split on whitespace runs, no empty tokens). -/
def splitWsAux : PyStr → PyStr → List PyStr
  | [], cur => if cur.isEmpty then [] else [cur.reverse]
  | c :: rest, cur =>
    if c.isWhitespace then
      if cur.isEmpty then splitWsAux rest [] else cur.reverse :: splitWsAux rest []
    else splitWsAux rest (c :: cur)

/-- Model of Python `s.split()` with no arguments. -/
def splitWs (s : PyStr) : List PyStr := splitWsAux s []

/-- The remainder component of Python `s.split(maxsplit=1)[1]` (defined when
`s` has at least two whitespace-separated tokens): skip leading whitespace,
skip the first token, skip the following whitespace run. -/
def splitRest (s : PyStr) : PyStr :=
  ((s.dropWhile Char.isWhitespace).dropWhile (fun c => !c.isWhitespace)).dropWhile
    Char.isWhitespace

/-- Model of Python `s.split(sep)` for a non-empty separator substring
(used by the source for `query.split("in")`). -/
def splitSubAux : PyStr → PyStr → PyStr → List PyStr
  | _, [], cur => [cur.reverse]
  | pat, c :: rest, cur =>
    if h : pat ≠ [] ∧ pat.isPrefixOf (c :: rest) then
      cur.reverse :: splitSubAux pat ((c :: rest).drop pat.length) []
    else
      splitSubAux pat rest (c :: cur)
termination_by _ s _ => s.length
decreasing_by
  · simp only [List.length_drop, List.length_cons]
    have hp : 1 ≤ pat.length := List.length_pos.mpr h.1
    omega
  · simp

/-- Model of Python `s.split(sep)`. -/
def splitSub (pat s : PyStr) : List PyStr := splitSubAux pat s []

/-- Join a list of strings with a separator, Python `sep.join(xs)`. -/
def joinSep (sep : PyStr) (xs : List PyStr) : PyStr := List.intercalate sep xs

/-- The last `n` elements of a list, Python `xs[-n:]`. -/
def lastN (n : Nat) (xs : List α) : List α := xs.drop (xs.length - n)

/-- Model of Python `str.capitalize()` restricted to ASCII: upper-case the
first character, lower-case the rest (used for the weather description). -/
def pyCapitalize : PyStr → PyStr
  | [] => []
  | c :: rest => Char.toUpper c :: pyLower rest

/-- Decimal rendering of a natural number as a `PyStr` (for Python
f-string interpolation of integers). -/
def natStr (n : Nat) : PyStr := (toString n).data

/-- Association-list lookup for the Python dicts the source uses as keyed
stores (`user_history`, the flask-caching cache, the memoize cache). -/
def alookup {κ β : Type} [DecidableEq κ] : List (κ × β) → κ → Option β
  | [], _ => none
  | (k, v) :: rest, key => if k = key then some v else alookup rest key

/-- Association-list insert-or-overwrite, Python `d[key] = v`. -/
def aset {κ β : Type} [DecidableEq κ] : List (κ × β) → κ → β → List (κ × β)
  | [], key, v => [(key, v)]
  | (k, w) :: rest, key, v =>
    if k = key then (key, v) :: rest else (k, w) :: aset rest key v

/-- One record of a user's search history (`add_to_search_history` builds
the dict `{'query': .., 'response': .., 'source': .., 'timestamp': ..}`;
the timestamp string `datetime.now().isoformat()` is passed in by callers
from the ambient clock). -/
structure HistoryRecord where
  query : PyStr
  response : PyStr
  source : PyStr
  timestamp : PyStr
  deriving DecidableEq, Repr

/-- One Gemini conversation exchange (`{'user': .., 'assistant': ..}`). -/
structure GeminiTurn where
  user : PyStr
  assistant : PyStr
  deriving DecidableEq, Repr

/-- A user's entry in the global `user_history` dict. -/
structure UserHistory where
  search_history : List HistoryRecord
  gemini_history : List GeminiTurn
  deriving DecidableEq, Repr

/-- A fresh empty history entry `{'search_history': [], 'gemini_history': []}`. -/
def emptyUserHistory : UserHistory := ⟨[], []⟩

/-- The global `user_history` dict, keyed by user id. -/
abbrev Store := List (PyStr × UserHistory)

/-- Source `get_user_history`: return the user's history entry, inserting a
fresh empty entry into the shared store when the user id is absent.  The
Python function mutates the global dict; the model returns the updated
store alongside the entry. -/
def get_user_history (users : Store) (user_id : PyStr) : UserHistory × Store :=
  match alookup users user_id with
  | some h => (h, users)
  | none => (emptyUserHistory, aset users user_id emptyUserHistory)

/-- Source `add_to_search_history`: append a record built from the given
fields and trim the list to its most recent 50 records (`[-50:]`). -/
def add_to_search_history (users : Store) (user_id query response source ts : PyStr) :
    Store :=
  let hs := get_user_history users user_id
  let sh := hs.1.search_history ++ [⟨query, response, source, ts⟩]
  let sh := if sh.length > 50 then sh.drop (sh.length - 50) else sh
  aset hs.2 user_id { hs.1 with search_history := sh }

/-- The banner prepended to every successful Gemini response. -/
def gemHeader : PyStr := lit "🔮 NAF AI Response:\n\n"

/-- Source `add_to_gemini_history`: append the exchange (with the banner
stripped from the assistant text) and trim to the most recent 7 (`[-7:]`). -/
def add_to_gemini_history (users : Store) (user_id query response : PyStr) : Store :=
  let hs := get_user_history users user_id
  let gh := hs.1.gemini_history ++ [⟨query, removeAll gemHeader response⟩]
  let gh := if gh.length > 7 then gh.drop (gh.length - 7) else gh
  aset hs.2 user_id { hs.1 with gemini_history := gh }

/-- The source's relatedness test in `get_related_history`: the lower-cased
token set of the query intersects the lower-cased token set of the stored
record's query (`query_words.intersection(hist_words)` non-empty). -/
def relatedTo (query : PyStr) (entry : HistoryRecord) : Bool :=
  (splitWs (pyLower query)).any fun w => (splitWs (pyLower entry.query)).contains w

/-- Source `get_related_history`: filter the user's stored records by
`relatedTo` (in storage order) and return the last 7 (`related[-7:] if
related else []`); goes through `get_user_history`, so it shares its
insert-if-absent effect on the store. -/
def get_related_history (users : Store) (user_id query : PyStr) :
    List HistoryRecord × Store :=
  let hs := get_user_history users user_id
  let related := hs.1.search_history.filter (relatedTo query)
  ((if related.isEmpty then [] else lastN 7 related), hs.2)

/-- Outcome of the Gemini HTTP call in `query_gemini`: a first candidate
text, a candidate-free response, or a raised exception / non-2xx status
(the source's `except` branch). -/
inductive GeminiApi where
  | candidates (text : PyStr)
  | empty
  | exn (msg : PyStr)

/-- Outcome of the WolframAlpha HTTP call in `query_wolfram`: a response
with a status code and body text, or a raised exception. -/
inductive WolframApi where
  | resp (status : Nat) (text : PyStr)
  | exn (msg : PyStr)

/-- Outcome of the OpenWeatherMap call in `get_weather`: the JSON fields
the source reads (already rendered as the strings Python would
interpolate), a non-200 response, or a raised exception. -/
inductive WeatherApi where
  | ok (temp feels desc humidity wind : PyStr)
  | notOk
  | exn (msg : PyStr)

/-- One article of a NewsAPI response, with the fields the source reads
(a Python `None` field is modelled as the empty string, which the
source's `or`-defaults replace the same way). -/
structure NewsArticle where
  title : PyStr
  source : PyStr
  description : PyStr

/-- Outcome of the NewsAPI call in `get_news`: an article list (status
"ok" and non-empty), a bad/empty response, or a raised exception. -/
inductive NewsApi where
  | ok (articles : List NewsArticle)
  | notOk
  | exn (msg : PyStr)

/-- Outcome of the Oxford dictionary call in `get_definition`.  The
source's drilling through the JSON (`results[0].lexicalEntries[:10]`,
`entries[0].senses[:10]`) is provider-schema glue abstracted into the
oracle, which returns the (category, first-definition) pairs that
drilling produces; `badStatus` is a non-200 reply, `noResults` an empty
`results` array, `exn` a raised exception. -/
inductive DictApi where
  | ok (senses : List (PyStr × PyStr))
  | badStatus (code : Nat)
  | noResults
  | exn (msg : PyStr)

/-- Outcome of the `wikipedia.page` call: the page fields the source
reads, a `DisambiguationError` with its options, or another exception. -/
inductive WikiApi where
  | page (title content url : PyStr)
  | disambig (options : List PyStr)
  | exn (msg : PyStr)

/-- One DuckDuckGo result, with the fields the source reads. -/
structure DdgItem where
  title : PyStr
  body : PyStr
  href : PyStr

/-- Outcome of the DuckDuckGo call in `search_duckduckgo`. -/
inductive DdgApi where
  | ok (results : List DdgItem)
  | exn (msg : PyStr)

/-- The ambient environment of one request: every network oracle, the
presentation-layer formatters (out of scope per the spec), and the
clock renderings the source interpolates. -/
structure Env where
  formatText : PyStr → PyStr
  formatWiki : PyStr → PyStr
  geminiApi : PyStr → GeminiApi
  wolframApi : PyStr → WolframApi
  weatherApi : PyStr → WeatherApi
  newsApi : PyStr → NewsApi
  dictApi : PyStr → DictApi
  wikiSearch : PyStr → List PyStr
  wikiPage : PyStr → WikiApi
  ddgText : PyStr → DdgApi
  nowStamp : PyStr
  nowTime : PyStr
  nowDate : PyStr

/-- The whole mutable process state: the flask-caching response cache
(`answer_…` keys, modelled by the normalized query itself since
`f"answer_{hash(q)}"` is injective in `q` up to hash collisions), the
`@cache.memoize` store of `cached_search`, and the `user_history` dict. -/
structure SysState where
  cache : List (PyStr × PyStr)
  memo : List ((PyStr × PyStr) × PyStr)
  users : Store
  deriving DecidableEq

/-- The state of a fresh process: all three stores empty. -/
def emptyState : SysState := ⟨[], [], []⟩

/-- Source `query_gemini(prompt, use_history=False)` (no user id): build no
context, call the API, format the result; no history is read or written. -/
def query_gemini_api (env : Env) (full_prompt : PyStr) : PyStr :=
  match env.geminiApi full_prompt with
  | .candidates text => gemHeader ++ env.formatText text
  | .empty => lit "❌ NAF couldn\x27t generate a response."
  | .exn msg => lit "⚠️ NAF error: " ++ msg

/-- Source `query_gemini(prompt, use_history=True, user_id=uid)`: read the
user's Gemini history (inserting an empty entry if absent), prepend it as
context, call the API, and on success append the exchange to the Gemini
history. -/
def query_gemini (env : Env) (st : SysState) (prompt user_id : PyStr) :
    PyStr × SysState :=
  let hs := get_user_history st.users user_id
  let context := hs.1.gemini_history.flatMap fun e =>
    [lit "Human: " ++ e.user, lit "Assistant: " ++ e.assistant]
  let full_prompt :=
    if context.isEmpty then prompt
    else lit "Context:\n" ++ joinSep (lit "\n") context ++ lit "\n\nQuestion: " ++ prompt
  let st1 : SysState := { st with users := hs.2 }
  match env.geminiApi full_prompt with
  | .candidates text =>
    let formatted := gemHeader ++ env.formatText text
    (formatted, { st1 with users := add_to_gemini_history st1.users user_id prompt formatted })
  | .empty => (lit "❌ NAF couldn\x27t generate a response.", st1)
  | .exn msg => (lit "⚠️ NAF error: " ++ msg, st1)

/-- Source `generate_summary`: summarize via Gemini (no history) and strip
the banner.  Its `except` fallback is unreachable because `query_gemini`
catches every exception internally and returns a string. -/
def generate_summary (env : Env) (text : PyStr) : PyStr :=
  removeAll gemHeader (query_gemini_api env
    (lit "Please provide a concise 10-12 sentence summary of the following text:\n\n"
      ++ text.take 3000 ++ lit "\n\nSummary:"))

/-- Append a search-history record on behalf of a provider when it was
given a user id (the `if user_id:` guard of the source providers). -/
def addHist (st : SysState) (uid : Option PyStr) (query response source ts : PyStr) :
    SysState :=
  match uid with
  | some u => { st with users := add_to_search_history st.users u query response source ts }
  | none => st

/-- Source `query_wolfram`: call the API; a 200 reply is formatted as an
answer, any other status becomes a canned failure text; either way the
result is recorded in the user's search history.  A raised exception is
returned as an error string without touching history. -/
def query_wolfram (env : Env) (st : SysState) (query : PyStr) (uid : Option PyStr) :
    PyStr × SysState :=
  match env.wolframApi query with
  | .resp status text =>
    let result :=
      if status = 200 then lit "🧮 NAF Answer:\n\n" ++ env.formatText text
      else lit "❌ NAF couldn\x27t solve this."
    (result, addHist st uid query result (lit "wolfram") env.nowStamp)
  | .exn msg => (lit "⚠️ NAF Math error: " ++ msg, st)

/-- Source `search_wikipedia`: search, fetch the first page, format it
(presentation abstracted into `env.formatWiki`), summarize, and assemble
the response; a `DisambiguationError` lists the first 10 options. -/
def search_wikipedia (env : Env) (st : SysState) (query : PyStr) (uid : Option PyStr) :
    PyStr × SysState :=
  match env.wikiSearch query with
  | [] => (lit "❌ Nothing found for this topic.", st)
  | first :: _ =>
    match env.wikiPage first with
    | .page title content url =>
      let formatted_content := env.formatWiki content
      let summary := generate_summary env formatted_content
      let response :=
        lit "📚 NAF: " ++ title ++ lit "\n\n🔍 Summary:\n" ++ summary
          ++ lit "\n\n📖 Full Information:\n" ++ formatted_content
          ++ lit "\n\nRead more: " ++ url
      (response, addHist st uid query response (lit "wikipedia") env.nowStamp)
    | .disambig options =>
      let opts := joinSep (lit "\n") ((options.take 10).map (fun o => lit "• " ++ o))
      (lit "🔍 Multiple options found:\n\n" ++ opts
        ++ lit "\n\nPlease refine your query.", st)
    | .exn msg => (lit "⚠️ NAF error: " ++ msg, st)

/-- Snippet post-processing in `search_duckduckgo`: newlines to spaces,
strip, truncate to 400 characters with a trailing dot. -/
def ddgSnippet (body : PyStr) : PyStr :=
  let s := pyStrip (body.map fun c => if c = '\n' then ' ' else c)
  if s.length > 400 then s.take 400 ++ lit "." else s

/-- Source `search_duckduckgo`: fetch up to 10 results, summarize the
first 10 title/body pairs, and render a numbered result list. -/
def search_duckduckgo (env : Env) (st : SysState) (query : PyStr) (uid : Option PyStr) :
    PyStr × SysState :=
  match env.ddgText query with
  | .exn msg => (lit "⚠️ Search error: " ++ msg, st)
  | .ok [] => (lit "🔍 No search results found for your query.", st)
  | .ok results =>
    let combined := joinSep (lit "\n")
      ((results.take 10).map fun r => r.title ++ lit ": " ++ r.body)
    let summary := generate_summary env combined
    let formatted := results.enum.map fun p =>
      natStr (p.1 + 1) ++ lit ". " ++ p.2.title ++ lit "\n   " ++ ddgSnippet p.2.body
        ++ lit "\n   🔗 " ++ p.2.href ++ lit "\n"
    let response :=
      lit "🔍 Search Results for \x27" ++ query ++ lit "\x27:\n\n📌 Summary:\n" ++ summary
        ++ lit "\n\n🔎 Detailed Results:\n" ++ joinSep (lit "\n") formatted
        ++ lit "\n\nℹ️ These are the most relevant results I found."
    (response, addHist st uid query response (lit "duckduckgo") env.nowStamp)

/-- City extraction in `get_weather`:
`re.sub(r'[^a-zA-Z\s]', '', query.split("in")[-1]).strip()`. -/
def extractCity (query : PyStr) : PyStr :=
  pyStrip (((splitSub (lit "in") query).getLastD []).filter
    (fun c => c.isAlpha || c.isWhitespace))

/-- Source `get_weather`: extract the city, call the API, render the
weather card, and record it in history; non-200 and exception paths
return error text without touching history. -/
def get_weather (env : Env) (st : SysState) (query : PyStr) (uid : Option PyStr) :
    PyStr × SysState :=
  let city := extractCity query
  match env.weatherApi city with
  | .ok temp feels desc humidity wind =>
    let result :=
      lit "<h2>⛅ Weather in " ++ city ++ lit "</h2>\n<div class=\x27weather-info\x27>\n<p>🌡️ <b>Temperature:</b> "
        ++ temp ++ lit "°C (Feels like " ++ feels ++ lit "°C)</p>\n<p>🌤️ <b>Conditions:</b> "
        ++ pyCapitalize desc ++ lit "</p>\n<p>💧 <b>Humidity:</b> " ++ humidity
        ++ lit "%</p>\n<p>💨 <b>Wind:</b> " ++ wind ++ lit " m/s</p>\n</div>"
    (result, addHist st uid query result (lit "weather") env.nowStamp)
  | .notOk => (lit "❌ Couldn\x27t retrieve weather for " ++ city ++ lit ".", st)
  | .exn msg => (lit "⚠️ Weather error: " ++ msg, st)

/-- Rendering of one news item in `get_news`, with the source's
`or`-defaults for missing fields. -/
def newsItem (a : NewsArticle) : PyStr :=
  let title := if a.title.isEmpty then lit "No title" else a.title
  let src := if a.source.isEmpty then lit "Unknown source" else a.source
  let desc := if a.description.isEmpty then lit "No description available" else a.description
  lit "<div class=\x27news-item\x27>\n<h3>📰 " ++ title ++ lit "</h3>\n<p><i>Source: "
    ++ src ++ lit "</i></p>\n<p>" ++ desc ++ lit "</p>\n</div>"

/-- Source `get_news`: build the item list from the first 30 articles, a
summary from the first 3 headlines, render the page, record it in
history; bad responses and exceptions return error text. -/
def get_news (env : Env) (st : SysState) (query : PyStr) (uid : Option PyStr) :
    PyStr × SysState :=
  match env.newsApi query with
  | .ok articles =>
    let news_items := (articles.take 30).map newsItem
    let headlines := joinSep (lit "\n") ((articles.take 3).map (·.title))
    let summary := generate_summary env
      (lit "News headlines about " ++ query ++ lit ":\n" ++ headlines)
    let result :=
      lit "<h2>🗞️ Latest News</h2>\n<div class=\x27news-summary\x27>\n<h3>📌 Summary</h3>\n<p>"
        ++ summary ++ lit "</p>\n</div>\n<div class=\x27news-list\x27>\n"
        ++ joinSep (lit "\n") news_items ++ lit "\n</div>"
    (result, addHist st uid query result (lit "news") env.nowStamp)
  | .notOk => (lit "❌ No news articles found.", st)
  | .exn msg => (lit "⚠️ News error: " ++ msg, st)

/-- Source `get_definition`: call the dictionary API for the word, render
the first 4 definitions with a summary, record it in history; non-200,
empty and exception paths return error text. -/
def get_definition (env : Env) (st : SysState) (word : PyStr) (uid : Option PyStr) :
    PyStr × SysState :=
  match env.dictApi word with
  | .badStatus code => (lit "❌ Dictionary API error: " ++ natStr code, st)
  | .noResults => (lit "❌ No definition found for \x27" ++ word ++ lit "\x27.", st)
  | .ok senses =>
    let definitions := senses.map fun s =>
      lit "<li>📖 <b>[" ++ s.1 ++ lit "]</b> " ++ s.2 ++ lit "</li>"
    if definitions.isEmpty then
      (lit "❌ No definitions found for \x27" ++ word ++ lit "\x27.", st)
    else
      let definition_text := joinSep (lit "\n") (definitions.take 4)
      let summary := generate_summary env
        (lit "Definitions of " ++ word ++ lit ":\n" ++ definition_text)
      let result :=
        lit "<h2>📚 Definitions of " ++ word
          ++ lit "</h2>\n<div class=\x27definition-summary\x27>\n<h3>📌 Summary</h3>\n<p>"
          ++ summary ++ lit "</p>\n</div>\n<div class=\x27definition-list\x27>\n<ul>\n"
          ++ definition_text ++ lit "\n</ul>\n</div>"
      (result, addHist st uid word result (lit "dictionary") env.nowStamp)
  | .exn msg => (lit "⚠️ Dictionary error: " ++ msg, st)

/-- Source `cached_search` (`@cache.memoize(timeout=300)`): memoize on the
`(query, source)` argument pair; on a miss run the underlying search with
no user id (so no history is recorded) and store the result. -/
def cached_search (env : Env) (st : SysState) (query source : PyStr) :
    PyStr × SysState :=
  match alookup st.memo (query, source) with
  | some v => (v, st)
  | none =>
    let r :=
      if source = lit "wikipedia" then (search_wikipedia env st query none).1
      else if source = lit "duckduckgo" then (search_duckduckgo env st query none).1
      else []
    (r, { st with memo := aset st.memo (query, source) r })

/-- The `brief_indicators` list of `get_short_answer`. -/
def briefIndicators : List PyStr :=
  [lit "briefly", lit "in brief", lit "short", lit "in short", lit "in 3 lines",
   lit "in 3 sentences", lit "summarize"]

/-- The `greetings` exact-phrase table of `get_short_answer`. -/
def greetingsTable : List (PyStr × PyStr) :=
  [(lit "hi", lit "Hello! How can I help you today?"),
   (lit "hello", lit "Hi there! What can I do for you?"),
   (lit "hey", lit "Hey! How can I assist you?"),
   (lit "hlw", lit "Hello! How can I help you?"),
   (lit "hlo", lit "Hi! What can I do for you?"),
   (lit "hii", lit "Hello! How can I help you today?"),
   (lit "hiii", lit "Hi there! What can I do for you?"),
   (lit "yo", lit "Hey! How can I help?"),
   (lit "sup", lit "Hey! What\x27s up? How can I help?"),
   (lit "greetings", lit "Hello! How can I assist you today?")]

/-- The `farewells` exact-phrase table of `get_short_answer`. -/
def farewellsTable : List (PyStr × PyStr) :=
  [(lit "bye", lit "Goodbye! Have a great day!"),
   (lit "goodbye", lit "Bye! Take care!"),
   (lit "see you", lit "See you later! Take care!"),
   (lit "cya", lit "See you! Have a good one!"),
   (lit "good night", lit "Good night! Sleep well!"),
   (lit "gn", lit "Good night! Sweet dreams!"),
   (lit "good morning", lit "Good morning! Have a great day!"),
   (lit "gm", lit "Good morning! How can I help you today?"),
   (lit "good afternoon", lit "Good afternoon! How can I assist you?"),
   (lit "ga", lit "Good afternoon! What can I do for you?")]

/-- The `thanks` exact-phrase table of `get_short_answer`. -/
def thanksTable : List (PyStr × PyStr) :=
  [(lit "thanks", lit "You\x27re welcome!"),
   (lit "thank you", lit "You\x27re welcome!"),
   (lit "thx", lit "You\x27re welcome!"),
   (lit "ty", lit "You\x27re welcome!"),
   (lit "thank", lit "You\x27re welcome!"),
   (lit "appreciate it", lit "You\x27re welcome!"),
   (lit "thanks a lot", lit "You\x27re welcome! Happy to help!"),
   (lit "thank you so much", lit "You\x27re very welcome!"),
   (lit "thnx", lit "You\x27re welcome!"),
   (lit "tnx", lit "You\x27re welcome!")]

/-- The `affirmations` exact-phrase table of `get_short_answer`. -/
def affirmationsTable : List (PyStr × PyStr) :=
  [(lit "ok", lit "Alright!"),
   (lit "okay", lit "Alright!"),
   (lit "sure", lit "Great!"),
   (lit "yes", lit "Perfect!"),
   (lit "yeah", lit "Great!"),
   (lit "yep", lit "Alright!"),
   (lit "fine", lit "Good!"),
   (lit "good", lit "Great!"),
   (lit "great", lit "Excellent!"),
   (lit "awesome", lit "Fantastic!")]

/-- The `help_queries` exact-phrase table of `get_short_answer`. -/
def helpTable : List (PyStr × PyStr) :=
  [(lit "help", lit "I can help you with information, calculations, weather, news, and more. What would you like to know?"),
   (lit "help me", lit "I\x27m here to help! What do you need?"),
   (lit "can you help", lit "Of course! What can I help you with?"),
   (lit "do you help", lit "Yes, I can help! What do you need?"),
   (lit "how do you work", lit "I can search information, calculate, check weather, get news, and more. What would you like to try?"),
   (lit "what can you do", lit "I can search information, calculate, check weather, get news, and more. What would you like to try?"),
   (lit "your capabilities", lit "I can search information, calculate, check weather, get news, and more. What would you like to try?"),
   (lit "your features", lit "I can search information, calculate, check weather, get news, and more. What would you like to try?"),
   (lit "your functions", lit "I can search information, calculate, check weather, get news, and more. What would you like to try?"),
   (lit "your abilities", lit "I can search information, calculate, check weather, get news, and more. What would you like to try?")]

/-- The leading verbs of the yes/no heuristic in `get_short_answer`. -/
def yesNoStarts : List PyStr :=
  [lit "is ", lit "are ", lit "do ", lit "does ", lit "did ", lit "can ",
   lit "will ", lit "should ", lit "would ", lit "could "]

/-- The yes/no prompt template of `get_short_answer` (the Python
triple-quoted f-string, indentation included). -/
def yesNoPrompt (query : PyStr) : PyStr :=
  lit "You are a factual assistant. Answer this yes/no question with a clear yes or no followed by a brief explanation.\n                Question: "
    ++ query
    ++ lit "\n                Rules:\n                1. Your response MUST start with either \"Yes:\" or \"No:\"\n                2. Provide a brief, factual explanation after the yes/no\n                3. Keep the explanation under 2 sentences\n                4. Be direct and clear\n                5. Base your answer on scientific facts and common knowledge\n                \n                Example format:\n                Yes: [brief explanation]\n                or\n                No: [brief explanation]\n                \n                Your response:"

/-- The brief-answer prompt template of `get_short_answer`. -/
def briefPrompt (clean_query : PyStr) : PyStr :=
  lit "Provide a very brief summary about " ++ clean_query
    ++ lit " in exactly 3 lines or less.\n            Rules:\n            1. Keep it extremely concise\n            2. Focus on the most important information\n            3. Use simple, clear language\n            4. Maximum 3 lines\n            5. No unnecessary details\n            \n            Your response:"

/-- Post-processing of the Gemini reply in the yes/no branch of
`get_short_answer`: strip the banner, then normalize the answer onto a
"Yes:"/"No:" shape by the source's cascade of checks.  Its `except`
branch is unreachable (`query_gemini` catches every exception). -/
def yesNoAnswer (env : Env) (query : PyStr) : PyStr :=
  let response := pyStrip (removeAll gemHeader (query_gemini_api env (yesNoPrompt query)))
  let rl := pyLower response
  if (lit "yes:").isPrefixOf rl then pyStrip (response.drop 4)
  else if (lit "no:").isPrefixOf rl then pyStrip (response.drop 3)
  else if containsSub (rl.take 10) (lit "yes") then lit "Yes: " ++ response
  else if containsSub (rl.take 10) (lit "no") then lit "No: " ++ response
  else if [lit "yes", lit "correct", lit "true", lit "right", lit "indeed"].any
      (containsSub rl) then lit "Yes: " ++ response
  else if [lit "no", lit "incorrect", lit "false", lit "wrong", lit "not"].any
      (containsSub rl) then lit "No: " ++ response
  else lit "Yes: " ++ response

/-- The brief-answer branch of `get_short_answer`: ask Gemini, strip the
banner, and truncate to the first 3 lines if longer. -/
def briefAnswer (env : Env) (clean_query : PyStr) : PyStr :=
  let response := pyStrip (removeAll gemHeader (query_gemini_api env (briefPrompt clean_query)))
  let lines := List.splitOn '\n' response
  if lines.length > 3 then joinSep (lit "\n") (lines.take 3) else response

/-- Source `get_short_answer`: exact-phrase lookup in the five canned
tables, then substring checks for "time" and "date", then the Gemini
yes/no heuristic (leading question verb plus a question mark), then the
brief-summary request handler; `none` means no short answer. -/
def get_short_answer (env : Env) (query : PyStr) : Option PyStr :=
  let query_lower := pyStrip (pyLower query)
  let is_brief_request := briefIndicators.any (containsSub query_lower)
  let clean_query := briefIndicators.foldl
    (fun cq ind => pyStrip (removeAll ind cq)) query_lower
  (greetingsTable.lookup query_lower).orElse fun _ =>
  (farewellsTable.lookup query_lower).orElse fun _ =>
  (thanksTable.lookup query_lower).orElse fun _ =>
  (affirmationsTable.lookup query_lower).orElse fun _ =>
  (helpTable.lookup query_lower).orElse fun _ =>
  if containsSub query_lower (lit "time") then some env.nowTime
  else if containsSub query_lower (lit "date") then some env.nowDate
  else if yesNoStarts.any (·.isPrefixOf query_lower)
      && containsSub query_lower (lit "?") then
    some (yesNoAnswer env query)
  else if is_brief_request then some (briefAnswer env clean_query)
  else none

/-- The routing decision of `get_answer`'s dispatch cascade, with the
argument each branch computes. -/
inductive Route where
  | aiCompletion (prompt : PyStr)
  | mathSolve (expr : PyStr)
  | weather (q : PyStr)
  | news (topic : PyStr)
  | definition (word : PyStr)
  | encyclopedia (q : PyStr)
  | webSearch (q : PyStr)
  deriving DecidableEq, Repr

/-- Whether a Route is the Weather variant. -/
def isWeatherRoute : Route → Bool
  | .weather _ => true
  | _ => false

/-- Whether a Route is the Definition variant. -/
def isDefRoute : Route → Bool
  | .definition _ => true
  | _ => false

/-- The leading math verbs checked by `get_answer`. -/
def solveStarts : List PyStr := [lit "solve", lit "calculate", lit "compute"]

/-- The arithmetic operators and symbols checked by `get_answer`. -/
def mathOps : List PyStr :=
  [lit "+", lit "-", lit "*", lit "/", lit "=", lit "^", lit "√",
   lit "square root", lit "power", lit "exponent"]

/-- The plain-word arithmetic vocabulary checked by `get_answer`. -/
def mathWordsA : List PyStr :=
  [lit "plus", lit "minus", lit "times", lit "divided by", lit "multiply",
   lit "divide", lit "sum", lit "difference", lit "product", lit "quotient"]

/-- The higher-math vocabulary checked by `get_answer`. -/
def mathWordsB : List PyStr :=
  [lit "equation", lit "formula", lit "function", lit "derivative",
   lit "integral", lit "limit", lit "matrix", lit "vector",
   lit "probability", lit "statistics"]

/-- The mathematical-query condition of `get_answer` (applied to the
lower-cased stripped query). -/
def isMathQuery (ql : PyStr) : Bool :=
  solveStarts.any (·.isPrefixOf ql) || mathOps.any (containsSub ql)
    || mathWordsA.any (containsSub ql) || mathWordsB.any (containsSub ql)

/-- The math argument of `get_answer`:
`query.split(maxsplit=1)[1] if len(query.split()) > 1 and
query_lower.startswith(("solve", "calculate", "compute")) else query`. -/
def mathArg (query : PyStr) : PyStr :=
  let ql := pyStrip (pyLower query)
  if (splitWs query).length > 1 && solveStarts.any (·.isPrefixOf ql) then splitRest query
  else query

/-- The encyclopedia topic keywords checked by `get_answer`. -/
def encycWords : List PyStr :=
  [lit "history", lit "medical", lit "war", lit "disease", lit "president",
   lit "empire", lit "about", lit "born", lit "birth"]

/-- The definition-word extraction of `get_answer`:
`re.sub(r'^(define|what is|meaning of)\s+', '', query_lower)` — the first
alternative that is a prefix followed by whitespace is removed together
with the whitespace run; otherwise the text is unchanged. -/
def defWord (ql : PyStr) : PyStr :=
  match [lit "define", lit "what is", lit "meaning of"].find? (fun p =>
      p.isPrefixOf ql &&
        match ql.drop p.length with
        | c :: _ => c.isWhitespace
        | [] => false) with
  | some p => (ql.drop p.length).dropWhile Char.isWhitespace
  | none => ql

/-- The news topic of `get_answer`:
`query_lower.replace("news", "").strip() or "current events"`. -/
def newsTopic (ql : PyStr) : PyStr :=
  let t := pyStrip (removeAll (lit "news") ql)
  if t.isEmpty then lit "current events" else t

/-- The ordered routing cascade of `get_answer` (lines 835-855 of the
source), first match wins: leading "." → AI completion; math verbs,
operators or vocabulary → Wolfram; "weather" substring → weather; "news"
substring → news; leading "define"/"meaning of" → dictionary;
encyclopedia keywords → Wikipedia; otherwise web search. -/
def classify (query : PyStr) : Route :=
  let ql := pyStrip (pyLower query)
  if (lit ".").isPrefixOf ql then .aiCompletion (pyStrip (query.drop 1))
  else if isMathQuery ql then .mathSolve (mathArg query)
  else if containsSub ql (lit "weather") then .weather query
  else if containsSub ql (lit "news") then .news (newsTopic ql)
  else if (lit "define").isPrefixOf ql || (lit "meaning of").isPrefixOf ql then
    .definition (defWord ql)
  else if encycWords.any (containsSub ql) then .encyclopedia query
  else .webSearch query

/-- Source `summarize_response`: texts up to 600 characters pass through;
longer ones are rebuilt sentence by sentence (`split('.')`) while the
running length stays within 600, with a trailing ellipsis. -/
def takeSents : List PyStr → Nat → List PyStr
  | [], _ => []
  | s :: rest, cur =>
    if cur + s.length ≤ 600 then s :: takeSents rest (cur + s.length) else []

/-- Source `summarize_response`. -/
def summarize_response (text : PyStr) : PyStr :=
  if text.length ≤ 600 then text
  else joinSep (lit ".") (takeSents (List.splitOn '.' text) 0) ++ lit "..."

/-- The related-history preamble `get_answer` builds when
`get_related_history` returns entries. -/
def buildHistoryPrompt (related : List HistoryRecord) : PyStr :=
  let items := related.flatMap fun it =>
    [lit "- Previous query: " ++ it.query,
     lit "  Response: " ++ summarize_response it.response]
  lit "📚 I found similar previous searches:\n" ++ joinSep (lit "\n") items
    ++ lit "\n\nHere\x27s the new answer:\n\n"

/-- The provider dispatch of `get_answer`, one call per Route variant.
Wikipedia and DuckDuckGo go through `cached_search` (no user id, so no
history); the DuckDuckGo reply is replaced by a rephrase suggestion when
it contains "No results". -/
def dispatchRoute (env : Env) (st : SysState) (query user_id : PyStr) :
    PyStr × SysState :=
  match classify query with
  | .aiCompletion p => query_gemini env st p user_id
  | .mathSolve m => query_wolfram env st m (some user_id)
  | .weather q => get_weather env st q (some user_id)
  | .news t => get_news env st t (some user_id)
  | .definition w => get_definition env st w (some user_id)
  | .encyclopedia q => cached_search env st q (lit "wikipedia")
  | .webSearch q =>
    let r := cached_search env st q (lit "duckduckgo")
    (if containsSub r.1 (lit "No results") then
        lit "I couldn\x27t find specific information about \x27" ++ query
          ++ lit "\x27. Would you like to try rephrasing your question?"
      else r.1, r.2)

/-- The cache key `get_answer` derives from a query:
`query.lower().strip()` (the flask cache key `f"answer_{hash(query_lower)}"`
is injective in `query_lower` up to hash collisions, so the model keys the
cache by `query_lower` itself). -/
def cache_key_of (query : PyStr) : PyStr := pyStrip (pyLower query)

/-- Source `get_answer`: reject blank queries with a plain message; return
a cached response when the key is present; otherwise try the short-answer
table, gather related history, dispatch to the routed provider, prepend
the related-history preamble (except for "." queries), store the response
in the cache (timeout 300s) and return it. -/
def get_answer (env : Env) (query user_id : PyStr) (st : SysState) :
    PyStr × SysState :=
  let query_lower := cache_key_of query
  if query_lower.isEmpty then (lit "Please enter a valid query.", st)
  else
    match alookup st.cache query_lower with
    | some v => (v, st)
    | none =>
      match get_short_answer env query with
      | some a => (a, st)
      | none =>
        let rel := get_related_history st.users user_id query
        let st1 : SysState := { st with users := rel.2 }
        let history_prompt :=
          if rel.1.isEmpty then ([] : PyStr) else buildHistoryPrompt rel.1
        let d := dispatchRoute env st1 query user_id
        let response :=
          if !history_prompt.isEmpty && !(lit ".").isPrefixOf query_lower then
            history_prompt ++ d.1
          else d.1
        (response, { d.2 with cache := aset d.2.cache query_lower response })

/-- The JSON body of an `/ask` request: the optional `query` and
`user_id` fields the handler reads. -/
structure AskData where
  query : Option PyStr
  user_id : Option PyStr
  deriving DecidableEq

/-- Outcome of the `/ask` handler: a 4xx error reply
(`jsonify({"error": msg}), status`) or a success payload (modelled by the
response text, the `has_history` flag, and the final state). -/
inductive AskOutcome where
  | clientError (status : Nat) (msg : PyStr)
  | success (response : PyStr) (has_history : Bool) (st : SysState)
  deriving DecidableEq

/-- Source `ask` route (after CORS preflight): a missing/invalid JSON body
is a 400 "Invalid request data"; a query blank after `.strip()` is a 400
"Query cannot be empty"; otherwise the user id is resolved (session id if
the session is available, else the request's `user_id`, else a fresh
random id — session availability and the random id are the `sessionUid`
and `freshUid` parameters) and `get_answer` is called on the stripped
query.  The success payload's `has_history` field reads the user's
history through `get_user_history`, sharing its insert-if-absent
effect. -/
def ask (env : Env) (sessionUid : Option PyStr) (freshUid : PyStr) (st : SysState)
    (data : Option AskData) : AskOutcome :=
  match data with
  | none => .clientError 400 (lit "Invalid request data")
  | some d =>
    let query := pyStrip (d.query.getD [])
    if query.isEmpty then .clientError 400 (lit "Query cannot be empty")
    else
      let user_id :=
        match sessionUid with
        | some s => s
        | none =>
          match d.user_id with
          | some u => u
          | none => freshUid
      let a := get_answer env query user_id st
      let hs := get_user_history a.2.users user_id
      .success a.1 (hs.1.search_history.length > 0) { a.2 with users := hs.2 }

/-- Phase of one caller in the cache-stampede model of `get_answer`'s
cache discipline: before the `cache.get` read, after a miss (about to
compute), or finished with a response. -/
inductive CallerPhase where
  | start
  | running
  | done (r : PyStr)
  deriving DecidableEq

/-- Whether a caller has finished. -/
def phaseDone : CallerPhase → Bool
  | .done _ => true
  | _ => false

/-- Shared state of K concurrent `get_answer` calls for one cache key:
the cache slot for that key, the number of provider invocations so far,
and each caller's phase. -/
structure SFState where
  cache : Option PyStr
  invocations : Nat
  callers : List CallerPhase
  deriving DecidableEq

/-- Interleaving semantics of `get_answer`'s cache usage for one key
(source lines 806-809 and 864): a caller atomically reads the cache
(`cache.get`) and either finishes with the hit or proceeds to compute;
a computing caller invokes the provider and atomically publishes the
result (`cache.set`).  The source takes no lock between the read and the
write, and the provider call is a blocking I/O suspension point under
eventlet, so steps of different callers interleave freely. -/
inductive SFStep (ans : PyStr) : SFState → SFState → Prop
  | readHit (s : SFState) (i : Nat) (v : PyStr) (hc : s.cache = some v)
      (hp : s.callers.get? i = some .start) :
      SFStep ans s ⟨s.cache, s.invocations, s.callers.set i (.done v)⟩
  | readMiss (s : SFState) (i : Nat) (hc : s.cache = none)
      (hp : s.callers.get? i = some .start) :
      SFStep ans s ⟨none, s.invocations, s.callers.set i .running⟩
  | compute (s : SFState) (i : Nat) (hp : s.callers.get? i = some .running) :
      SFStep ans s ⟨some ans, s.invocations + 1, s.callers.set i (.done ans)⟩

/-- Two concurrent callers, both before their cache read, cold cache. -/
def sfInit : SFState := ⟨none, 0, [.start, .start]⟩

/-- The stampede outcome: both callers finished, provider invoked twice. -/
def sfStampede : SFState :=
  ⟨some (lit "ans"), 2, [.done (lit "ans"), .done (lit "ans")]⟩

/-- A concrete test environment: identity formatters, all providers
failing or empty, fixed clock strings. -/
def baseEnv : Env where
  formatText := fun s => s
  formatWiki := fun s => s
  geminiApi := fun _ => .empty
  wolframApi := fun _ => .exn (lit "boom")
  weatherApi := fun _ => .notOk
  newsApi := fun _ => .notOk
  dictApi := fun _ => .noResults
  wikiSearch := fun _ => []
  wikiPage := fun _ => .exn (lit "x")
  ddgText := fun _ => .exn (lit "x")
  nowStamp := lit "2026-01-01T00:00:00"
  nowTime := lit "12:00 PM"
  nowDate := lit "January 01, 2026"

/-- The test environment with a succeeding Wolfram provider. -/
def okEnv : Env := { baseEnv with wolframApi := fun _ => .resp 200 (lit "4") }

/-! ## Helper lemmas -/

/-- Looking up a key right after setting it returns the new value. -/
theorem alookup_aset_self {κ β : Type} [DecidableEq κ] (l : List (κ × β)) (k : κ) (v : β) :
    alookup (aset l k v) k = some v := by
  induction l with
  | nil => simp [aset, alookup]
  | cons p rest ih =>
    obtain ⟨a, b⟩ := p
    by_cases h : a = k
    · simp [aset, alookup, h]
    · simp [aset, alookup, h, ih]

/-- Lower-casing leaves a whitespace character unchanged. -/
theorem toLower_ws {c : Char} (h : c.isWhitespace = true) : c.toLower = c := by
  simp only [Char.isWhitespace, Bool.or_eq_true, decide_eq_true_eq] at h
  rcases h with ((h | h) | h) | h <;> subst h <;> decide

/-- Lower-casing leaves an all-whitespace string unchanged. -/
theorem pyLower_all_ws {w : PyStr} (h : w.all Char.isWhitespace = true) : pyLower w = w := by
  induction w with
  | nil => rfl
  | cons c rest ih =>
    simp only [List.all_cons, Bool.and_eq_true] at h
    simp only [pyLower, List.map_cons] at ih ⊢
    exact List.cons_eq_cons.mpr ⟨toLower_ws h.1, ih h.2⟩

/-- Lower-casing distributes over append. -/
theorem pyLower_append (a b : PyStr) : pyLower (a ++ b) = pyLower a ++ pyLower b :=
  List.map_append _ a b

/-- Dropping leading whitespace ignores an all-whitespace front segment. -/
theorem dropWhile_ws_append {w s : PyStr} (hw : w.all Char.isWhitespace = true) :
    (w ++ s).dropWhile Char.isWhitespace = s.dropWhile Char.isWhitespace :=
  List.dropWhile_append_of_pos (by simpa using List.all_eq_true.mp hw)

/-- Stripping ignores all-whitespace text prepended to the string. -/
theorem pyStrip_ws_append {w s : PyStr} (hw : w.all Char.isWhitespace = true) :
    pyStrip (w ++ s) = pyStrip s := by
  unfold pyStrip
  rw [dropWhile_ws_append hw]

/-- Stripping ignores all-whitespace text appended to the string. -/
theorem pyStrip_append_ws {s w : PyStr} (hw : w.all Char.isWhitespace = true) :
    pyStrip (s ++ w) = pyStrip s := by
  have hwr : w.reverse.all Char.isWhitespace = true := by simpa using hw
  have hww : List.dropWhile Char.isWhitespace w = [] :=
    List.dropWhile_eq_nil_iff.mpr (by simpa using List.all_eq_true.mp hw)
  unfold pyStrip
  rw [List.dropWhile_append]
  by_cases h : (s.dropWhile Char.isWhitespace).isEmpty
  · rw [if_pos h, List.isEmpty_iff.mp h, hww]
  · rw [if_neg h, List.reverse_append, dropWhile_ws_append hwr]

/-- The last `n` elements of the empty list. -/
theorem lastN_nil (n : Nat) : lastN n ([] : List α) = [] := by
  simp [lastN]

/-- Taking the last `n` elements yields at most `n` elements. -/
theorem length_lastN_le (n : Nat) (xs : List α) : (lastN n xs).length ≤ n := by
  simp only [lastN, List.length_drop]
  omega

/-- Lists no longer than `n` are unchanged by `lastN n`. -/
theorem lastN_of_length_le {n : Nat} {xs : List α} (h : xs.length ≤ n) :
    lastN n xs = xs := by
  simp [lastN, Nat.sub_eq_zero_of_le h]

/-- The last `n` elements, via reversal. -/
theorem lastN_eq_reverse_take (n : Nat) (xs : List α) :
    lastN n xs = (xs.reverse.take n).reverse := by
  rw [List.take_reverse, List.reverse_reverse]
  rfl

/-- Truncating the second summand before an `n`-truncation is harmless. -/
theorem take_append_take (n : Nat) (bs cs : List α) :
    (bs ++ cs.take n).take n = (bs ++ cs).take n := by
  rw [List.take_append_eq_append_take, List.take_append_eq_append_take, List.take_take,
    Nat.min_eq_left (Nat.sub_le _ _)]

/-- Pre-truncating to the last `n` elements does not change the last `n`
elements of a longer append. -/
theorem lastN_lastN_append (n : Nat) (xs ys : List α) :
    lastN n (lastN n xs ++ ys) = lastN n (xs ++ ys) := by
  rw [lastN_eq_reverse_take n xs, lastN_eq_reverse_take n (_ ++ ys),
    lastN_eq_reverse_take n (xs ++ ys), List.reverse_append, List.reverse_reverse,
    List.reverse_append, take_append_take]

/-- The append-then-trim step `add_to_search_history` performs on one
user's record list. -/
def stepHist (acc : List HistoryRecord) (r : HistoryRecord) : List HistoryRecord :=
  if (acc ++ [r]).length > 50 then (acc ++ [r]).drop ((acc ++ [r]).length - 50)
  else acc ++ [r]

/-- The append-then-trim step always equals keeping the last 50 records. -/
theorem stepHist_eq (acc : List HistoryRecord) (r : HistoryRecord) :
    stepHist acc r = lastN 50 (acc ++ [r]) := by
  unfold stepHist lastN
  by_cases h : (acc ++ [r]).length > 50
  · rw [if_pos h]
  · rw [if_neg h, Nat.sub_eq_zero_of_le (Nat.le_of_not_lt h), List.drop_zero]

/-- Folding the append-then-trim step keeps exactly the last 50 records. -/
theorem foldl_stepHist (rs : List HistoryRecord) :
    ∀ acc : List HistoryRecord, acc.length ≤ 50 →
      rs.foldl stepHist acc = lastN 50 (acc ++ rs) := by
  induction rs with
  | nil =>
    intro acc h
    simpa using (lastN_of_length_le h).symm
  | cons r rest ih =>
    intro acc h
    have hlen : (stepHist acc r).length ≤ 50 := by
      rw [stepHist_eq]
      exact length_lastN_le _ _
    rw [List.foldl_cons, ih _ hlen, stepHist_eq, lastN_lastN_append]
    congr 1
    simp

/-- One `add_to_search_history` on a single-user store is the
append-then-trim step on that user's record list. -/
theorem add_hist_single (uid : PyStr) (h : UserHistory) (q resp src ts : PyStr) :
    add_to_search_history [(uid, h)] uid q resp src ts
      = [(uid, { h with search_history := stepHist h.search_history ⟨q, resp, src, ts⟩ })] := by
  simp [add_to_search_history, get_user_history, alookup, aset, stepHist]

/-- Folding appends over a single-user store folds the append-then-trim
step on that user's record list. -/
theorem foldl_add_single (uid : PyStr) (rs : List HistoryRecord) :
    ∀ (acc : List HistoryRecord) (gh : List GeminiTurn),
      rs.foldl (fun st r =>
          add_to_search_history st uid r.query r.response r.source r.timestamp)
        [(uid, ⟨acc, gh⟩)]
        = [(uid, ⟨rs.foldl stepHist acc, gh⟩)] := by
  induction rs with
  | nil => intro acc gh; rfl
  | cons r rest ih =>
    intro acc gh
    rw [List.foldl_cons, add_hist_single, ih]
    rfl

/-- A non-blank query key is non-empty as a Boolean. -/
theorem cache_key_not_isEmpty {query : PyStr} (hq : cache_key_of query ≠ []) :
    (cache_key_of query).isEmpty = false := by
  cases h : (cache_key_of query).isEmpty
  · rfl
  · exact absurd (List.isEmpty_iff.mp h) hq

/-- A blank query makes `get_answer` return the fixed message unchanged. -/
theorem get_answer_blank (env : Env) (query user_id : PyStr) (st : SysState)
    (hq : cache_key_of query = []) :
    get_answer env query user_id st = (lit "Please enter a valid query.", st) := by
  simp [get_answer, hq]

/-- A cache hit makes `get_answer` return the cached response with the
state unchanged, whatever the providers would do. -/
theorem get_answer_hit (env : Env) (query user_id : PyStr) (st : SysState) (r : PyStr)
    (hq : cache_key_of query ≠ [])
    (h : alookup st.cache (cache_key_of query) = some r) :
    get_answer env query user_id st = (r, st) := by
  simp [get_answer, cache_key_not_isEmpty hq, h]

/-- A cache miss with an available short answer makes `get_answer` return
it with the state unchanged. -/
theorem get_answer_short (env : Env) (query user_id : PyStr) (st : SysState) (a : PyStr)
    (hq : cache_key_of query ≠ [])
    (hmiss : alookup st.cache (cache_key_of query) = none)
    (hshort : get_short_answer env query = some a) :
    get_answer env query user_id st = (a, st) := by
  simp [get_answer, cache_key_not_isEmpty hq, hmiss, hshort]

/-- A cache miss without a short answer makes `get_answer` store the
response it returns under the query's key. -/
theorem get_answer_sets (env : Env) (query user_id : PyStr) (st : SysState)
    (hq : cache_key_of query ≠ [])
    (hmiss : alookup st.cache (cache_key_of query) = none)
    (hshort : get_short_answer env query = none) :
    alookup (get_answer env query user_id st).2.cache (cache_key_of query)
      = some (get_answer env query user_id st).1 := by
  simp [get_answer, cache_key_not_isEmpty hq, hmiss, hshort, alookup_aset_self]

/-! ## Claim C3: cache key normalization -/

/-- C3 counterexample: `"weather  in paris"` and `"weather in paris"`
differ only in internal whitespace (identical lower-cased token lists),
yet `get_answer` computes different cache keys for them — the
normalization does not collapse internal whitespace. -/
theorem c3_counterexample :
    splitWs (pyLower (lit "weather  in paris")) = splitWs (pyLower (lit "weather in paris"))
      ∧ cache_key_of (lit "weather  in paris") ≠ cache_key_of (lit "weather in paris") := by
  decide

/-- C3 (amended): the cache key of `get_answer` is the lower-cased,
trimmed query, so it is invariant under leading/trailing whitespace and
under case changes — but internal whitespace is preserved. -/
theorem c3_key_normalization :
    (∀ q w1 w2 : PyStr, w1.all Char.isWhitespace = true →
      w2.all Char.isWhitespace = true →
      cache_key_of (w1 ++ q ++ w2) = cache_key_of q)
    ∧ (∀ q1 q2 : PyStr, pyLower q1 = pyLower q2 →
      cache_key_of q1 = cache_key_of q2) := by
  constructor
  · intro q w1 w2 h1 h2
    show pyStrip (pyLower (w1 ++ q ++ w2)) = pyStrip (pyLower q)
    rw [pyLower_append, pyLower_append, pyLower_all_ws h1, pyLower_all_ws h2,
      List.append_assoc, pyStrip_ws_append h1, pyStrip_append_ws h2]
  · intro q1 q2 h
    show pyStrip (pyLower q1) = pyStrip (pyLower q2)
    rw [h]

/-- C3 witness: stray outer whitespace and case changes around
`"Weather In Paris"` leave the cache key unchanged. -/
theorem c3_witness :
    cache_key_of (lit "  " ++ lit "Weather In Paris" ++ lit " ")
        = cache_key_of (lit "Weather In Paris")
      ∧ cache_key_of (lit "Weather In Paris") = cache_key_of (lit "weather in paris") :=
  ⟨c3_key_normalization.1 (lit "Weather In Paris") (lit "  ") (lit " ")
      (by decide) (by decide),
    c3_key_normalization.2 (lit "Weather In Paris") (lit "weather in paris") (by decide)⟩

/-! ## Claim C4: classifier rule order for weather vs math -/

/-- C4 counterexample: `"weather 2+2"` contains both "weather" and an
arithmetic operator, and the cascade routes it to the math solver, not to
the weather provider — arithmetic heuristics are checked before keyword
domains. -/
theorem c4_counterexample :
    containsSub (cache_key_of (lit "weather 2+2")) (lit "weather") = true
      ∧ isMathQuery (cache_key_of (lit "weather 2+2")) = true
      ∧ classify (lit "weather 2+2") = Route.mathSolve (lit "weather 2+2")
      ∧ isWeatherRoute (classify (lit "weather 2+2")) = false := by
  decide

/-- C4 (amended): a query that is not a "." AI query and satisfies the
arithmetic heuristic resolves to the MathSolve route even when it
contains "weather": the math branch precedes the weather branch in
`get_answer`'s cascade. -/
theorem c4_math_before_weather (q : PyStr)
    (hdot : (lit ".").isPrefixOf (pyStrip (pyLower q)) = false)
    (hm : isMathQuery (pyStrip (pyLower q)) = true)
    (hw : containsSub (pyStrip (pyLower q)) (lit "weather") = true) :
    classify q = Route.mathSolve (mathArg q)
      ∧ isWeatherRoute (classify q) = false := by
  have h1 : classify q = Route.mathSolve (mathArg q) := by
    simp [classify, hdot, hm]
  exact ⟨h1, by rw [h1]; rfl⟩

/-- C4 witness: the amended rule applied to `"weather 2+2"`. -/
theorem c4_witness :
    classify (lit "weather 2+2") = Route.mathSolve (mathArg (lit "weather 2+2"))
      ∧ isWeatherRoute (classify (lit "weather 2+2")) = false :=
  c4_math_before_weather (lit "weather 2+2") (by decide) (by decide) (by decide)

/-! ## Claim C9: definition routing -/

/-- C9 counterexample: `"what is serendipity"` begins with "what is" but
is routed to WebSearch, not Definition — the dispatch only tests for the
leading phrases "define" and "meaning of". -/
theorem c9_counterexample :
    (lit "what is").isPrefixOf (cache_key_of (lit "what is serendipity")) = true
      ∧ classify (lit "what is serendipity")
          = Route.webSearch (lit "what is serendipity")
      ∧ isDefRoute (classify (lit "what is serendipity")) = false := by
  decide

/-- C9 (amended): a query beginning with "define" or "meaning of" that no
earlier cascade rule captures resolves to the Definition route, with the
argument obtained from the lower-cased stripped text by removing the
leading `(define|what is|meaning of)` prefix and following whitespace;
queries beginning with "what is" do not trigger this rule. -/
theorem c9_definition_routing (q : PyStr)
    (hdot : (lit ".").isPrefixOf (pyStrip (pyLower q)) = false)
    (hm : isMathQuery (pyStrip (pyLower q)) = false)
    (hw : containsSub (pyStrip (pyLower q)) (lit "weather") = false)
    (hn : containsSub (pyStrip (pyLower q)) (lit "news") = false)
    (hd : ((lit "define").isPrefixOf (pyStrip (pyLower q))
        || (lit "meaning of").isPrefixOf (pyStrip (pyLower q))) = true) :
    classify q = Route.definition (defWord (pyStrip (pyLower q))) := by
  simp [classify, hdot, hm, hw, hn, hd]

/-- C9 witness: `"define serendipity"` routes to Definition with the
prefix stripped. -/
theorem c9_witness :
    classify (lit "define serendipity")
      = Route.definition (defWord (cache_key_of (lit "define serendipity"))) :=
  c9_definition_routing (lit "define serendipity") (by decide) (by decide)
    (by decide) (by decide) (by decide)

/-! ## Claim C5: recentRelated postcondition -/

/-- A first stored record for the C5 scenario. -/
def relRec1 : HistoryRecord := ⟨lit "weather in osaka", lit "r1", lit "s", lit "t1"⟩

/-- A second, later stored record for the C5 scenario. -/
def relRec2 : HistoryRecord := ⟨lit "weather in kyoto", lit "r2", lit "s", lit "t2"⟩

/-- A store in which user "u" has the two weather records, oldest first. -/
def relStore : Store := [(lit "u", ⟨[relRec1, relRec2], []⟩)]

/-- Modelled from the spec: "results returned in reverse-chronological
order, truncated to `limit`" — the related records (word-set-intersection
matches), newest first, truncated to the given limit. -/
def recentRelatedSpec (users : Store) (user_id query : PyStr) (limit : Nat) :
    List HistoryRecord :=
  (((get_user_history users user_id).1.search_history.filter
    (relatedTo query)).reverse).take limit

/-- C5 counterexample: with two related stored records,
`get_related_history` returns them oldest first, while the claimed
reverse-chronological order lists them newest first; the source also
fixes the truncation bound at 7 instead of taking a `limit` parameter. -/
theorem c5_counterexample :
    (get_related_history relStore (lit "u") (lit "weather in tokyo")).1
        = [relRec1, relRec2]
      ∧ recentRelatedSpec relStore (lit "u") (lit "weather in tokyo") 7
        = [relRec2, relRec1]
      ∧ relRec1 ≠ relRec2 := by
  decide

/-- C5 (amended): `get_related_history` returns exactly the last (most
recent) 7 stored records whose lower-cased token set meets the query's
token set, kept in chronological (oldest-first) storage order: the
result is the 7-suffix of the relatedness filter, it is a sublist of the
stored history, and each returned record is related to the query. -/
theorem c5_related_postcondition (users : Store) (user_id query : PyStr) :
    (get_related_history users user_id query).1
        = lastN 7 ((get_user_history users user_id).1.search_history.filter
            (relatedTo query))
      ∧ List.Sublist (get_related_history users user_id query).1
          (get_user_history users user_id).1.search_history
      ∧ ∀ r ∈ (get_related_history users user_id query).1,
          relatedTo query r = true := by
  have h1 : (get_related_history users user_id query).1
      = lastN 7 ((get_user_history users user_id).1.search_history.filter
          (relatedTo query)) := by
    unfold get_related_history
    by_cases h : ((get_user_history users user_id).1.search_history.filter
        (relatedTo query)).isEmpty
    · simp only [h, if_true]
      rw [List.isEmpty_iff.mp h, lastN_nil]
    · simp [h]
  refine ⟨h1, ?_, ?_⟩
  · rw [h1]
    unfold lastN
    exact (List.drop_sublist _ _).trans (List.filter_sublist _)
  · intro r hr
    rw [h1] at hr
    unfold lastN at hr
    exact (List.mem_filter.mp (List.mem_of_mem_drop hr)).2

/-- C5 witness: the postcondition applied to the concrete two-record
store shows the returned record `relRec1` is related to the query. -/
theorem c5_witness : relatedTo (lit "weather in tokyo") relRec1 = true :=
  (c5_related_postcondition relStore (lit "u") (lit "weather in tokyo")).2.2
    relRec1 (by decide)

/-! ## Claim C6: history cap invariant -/

/-- C6 (confirmed): folding `M > 50` appends for one user over an empty
store leaves exactly the 50 most recently appended records, in arrival
order (the oldest `M - 50` are evicted). -/
theorem c6_history_cap (user_id : PyStr) (rs : List HistoryRecord)
    (h : rs.length > 50) :
    alookup (rs.foldl (fun st r =>
        add_to_search_history st user_id r.query r.response r.source r.timestamp)
      ([] : Store)) user_id
      = some ⟨rs.drop (rs.length - 50), []⟩ := by
  cases rs with
  | nil => simp at h
  | cons r rest =>
    rw [List.foldl_cons]
    have h0 : add_to_search_history ([] : Store) user_id r.query r.response
        r.source r.timestamp = [(user_id, ⟨[r], []⟩)] := by
      simp [add_to_search_history, get_user_history, alookup, aset, emptyUserHistory]
    rw [h0, foldl_add_single]
    have h2 : rest.foldl stepHist [r] = lastN 50 ([r] ++ rest) :=
      foldl_stepHist rest [r] (by simp)
    rw [h2]
    simp [alookup, lastN]

/-- The 51 records appended in the C6 witness. -/
def capRecs : List HistoryRecord :=
  (List.range 51).map fun i => ⟨lit "q", lit "r", lit "s", natStr i⟩

/-- C6 witness: appending 51 records leaves the last 50, in order. -/
theorem c6_witness :
    capRecs.length > 50
      ∧ alookup (capRecs.foldl (fun st r =>
            add_to_search_history st (lit "u") r.query r.response r.source r.timestamp)
          ([] : Store)) (lit "u")
        = some ⟨capRecs.drop (capRecs.length - 50), []⟩ :=
  ⟨by decide, c6_history_cap (lit "u") capRecs (by decide)⟩

/-! ## Claim C10: frame effect of history reads -/

/-- C10 (confirmed): for a user id with no entry in the store, both
`get_user_history` and `get_related_history` succeed with an empty
result, but as a side effect they insert a fresh empty history entry
(`{'search_history': [], 'gemini_history': []}`) for that user id into
the shared store, where a subsequent lookup finds it. -/
theorem c10_frame_effect (users : Store) (user_id query : PyStr)
    (h : alookup users user_id = none) :
    get_user_history users user_id
        = (emptyUserHistory, aset users user_id emptyUserHistory)
      ∧ get_related_history users user_id query
        = ([], aset users user_id emptyUserHistory)
      ∧ alookup (aset users user_id emptyUserHistory) user_id = some emptyUserHistory := by
  have h1 : get_user_history users user_id
      = (emptyUserHistory, aset users user_id emptyUserHistory) := by
    simp [get_user_history, h]
  refine ⟨h1, ?_, alookup_aset_self _ _ _⟩
  simp [get_related_history, h1, emptyUserHistory]

/-- C10 witness: the frame effect on the empty store. -/
theorem c10_witness :
    get_user_history ([] : Store) (lit "u")
        = (emptyUserHistory, aset ([] : Store) (lit "u") emptyUserHistory)
      ∧ get_related_history ([] : Store) (lit "u") (lit "weather")
        = ([], aset ([] : Store) (lit "u") emptyUserHistory)
      ∧ alookup (aset ([] : Store) (lit "u") emptyUserHistory) (lit "u")
        = some emptyUserHistory :=
  c10_frame_effect ([] : Store) (lit "u") (lit "weather") (by decide)

/-! ## Claim C1: single-flight caching -/

/-- C1 counterexample: under the interleaving semantics of `get_answer`'s
lock-free get-compute-set cache discipline, two concurrent callers for
the same key can both observe a miss and then both invoke the provider:
a reachable final state has both callers finished with 2 provider
invocations, refuting "exactly one invocation for K concurrent calls". -/
theorem c1_counterexample :
    Relation.ReflTransGen (SFStep (lit "ans")) sfInit sfStampede
      ∧ sfStampede.callers.all phaseDone = true
      ∧ sfStampede.invocations = 2
      ∧ sfStampede.invocations ≠ 1 := by
  refine ⟨?_, by decide, by decide, by decide⟩
  have s1 : SFStep (lit "ans") sfInit ⟨none, 0, [.running, .start]⟩ :=
    SFStep.readMiss sfInit 0 rfl rfl
  have s2 : SFStep (lit "ans") ⟨none, 0, [.running, .start]⟩
      ⟨none, 0, [.running, .running]⟩ :=
    SFStep.readMiss _ 1 rfl rfl
  have s3 : SFStep (lit "ans") ⟨none, 0, [.running, .running]⟩
      ⟨some (lit "ans"), 1, [.done (lit "ans"), .running]⟩ :=
    SFStep.compute _ 0 rfl
  have s4 : SFStep (lit "ans") ⟨some (lit "ans"), 1, [.done (lit "ans"), .running]⟩
      sfStampede :=
    SFStep.compute _ 1 rfl
  exact Relation.ReflTransGen.head s1 (Relation.ReflTransGen.head s2
    (Relation.ReflTransGen.head s3 (Relation.ReflTransGen.single s4)))

/-- C1 (amended): the cache de-duplicates only sequentially, with no
single-flight guarantee.  Once a response is cached under a query's key,
any later `get_answer` call returns it verbatim with the state unchanged
and independently of every provider (so no provider is invoked); and a
call that misses the cache with no short answer always stores the
response it returns under the key, so a subsequent sequential call is
served from the cache.  Concurrent callers that interleave between the
cache read and the cache write may each invoke the provider (see the
stampede counterexample). -/
theorem c1_sequential_dedup :
    (∀ (env : Env) (q uid : PyStr) (st : SysState) (r : PyStr),
        cache_key_of q ≠ [] → alookup st.cache (cache_key_of q) = some r →
        get_answer env q uid st = (r, st))
    ∧ (∀ (env : Env) (q uid : PyStr) (st : SysState),
        cache_key_of q ≠ [] → alookup st.cache (cache_key_of q) = none →
        get_short_answer env q = none →
        alookup (get_answer env q uid st).2.cache (cache_key_of q)
          = some (get_answer env q uid st).1) :=
  ⟨fun env q uid st r hq h => get_answer_hit env q uid st r hq h,
   fun env q uid st hq hm hs => get_answer_sets env q uid st hq hm hs⟩

/-- C1 witness: a cached entry for "hi" is returned unchanged (for any
provider behavior; here the failing test environment). -/
theorem c1_witness :
    get_answer baseEnv (lit "hi") (lit "u") ⟨[(lit "hi", lit "X")], [], []⟩
      = (lit "X", ⟨[(lit "hi", lit "X")], [], []⟩) :=
  c1_sequential_dedup.1 baseEnv (lit "hi") (lit "u")
    ⟨[(lit "hi", lit "X")], [], []⟩ (lit "X") (by decide) (by decide)

/-! ## Claim C2: failure non-pinning -/

/-- C2 counterexample: with a failing Wolfram provider, the first
`get_answer "calculate 2+2"` returns the error message and caches it; an
immediately subsequent call with a *succeeding* provider still returns
the cached error message, while a fresh computation would have returned
the successful answer — the failure is pinned for the TTL. -/
theorem c2_counterexample :
    (get_answer baseEnv (lit "calculate 2+2") (lit "u") emptyState).1
        = lit "⚠️ NAF Math error: boom"
      ∧ (get_answer okEnv (lit "calculate 2+2") (lit "u")
            (get_answer baseEnv (lit "calculate 2+2") (lit "u") emptyState).2).1
        = lit "⚠️ NAF Math error: boom"
      ∧ (get_answer okEnv (lit "calculate 2+2") (lit "u") emptyState).1
        = lit "🧮 NAF Answer:\n\n4"
      ∧ (lit "⚠️ NAF Math error: boom" : PyStr) ≠ lit "🧮 NAF Answer:\n\n4" := by
  decide

/-- C2 (amended): a failed provider computation is cached like any other
response: whatever response the first call produced (including provider
error messages), an immediately subsequent call for the same key returns
that stored response unchanged, independently of the new call's
providers — no fresh computation is triggered until the entry expires. -/
theorem c2_failure_cached (env env2 : Env) (q uid : PyStr) (st : SysState)
    (r1 : PyStr) (st1 : SysState)
    (h1 : get_answer env q uid st = (r1, st1))
    (hq : cache_key_of q ≠ [])
    (hmiss : alookup st.cache (cache_key_of q) = none)
    (hshort : get_short_answer env q = none) :
    get_answer env2 q uid st1 = (r1, st1) := by
  have hs := get_answer_sets env q uid st hq hmiss hshort
  rw [h1] at hs
  exact get_answer_hit env2 q uid st1 r1 hq hs

/-- C2 witness: the failed "calculate 2+2" computation is replayed to the
second call even though its provider would succeed. -/
theorem c2_witness :
    get_answer okEnv (lit "calculate 2+2") (lit "u")
        (get_answer baseEnv (lit "calculate 2+2") (lit "u") emptyState).2
      = ((get_answer baseEnv (lit "calculate 2+2") (lit "u") emptyState).1,
         (get_answer baseEnv (lit "calculate 2+2") (lit "u") emptyState).2) :=
  c2_failure_cached baseEnv okEnv (lit "calculate 2+2") (lit "u") emptyState _ _
    rfl (by decide) (by decide) (by decide)

/-! ## Claim C7: empty-query failure -/

/-- C7 counterexample: a request with no JSON body crosses the `/ask`
boundary as a hard 400 error distinct from the empty-query error, so
EmptyQuery is not the only boundary error; moreover the core
`get_answer` itself does not fail on a blank query — it returns the
normal response string "Please enter a valid query.". -/
theorem c7_counterexample :
    ask baseEnv none (lit "u") emptyState none
        = AskOutcome.clientError 400 (lit "Invalid request data")
      ∧ (lit "Invalid request data" : PyStr) ≠ lit "Query cannot be empty"
      ∧ get_answer baseEnv (lit "   ") (lit "u") emptyState
        = (lit "Please enter a valid query.", emptyState) := by
  decide

/-- C7 (amended): a query blank after trimming is rejected at the `/ask`
boundary with the 400 "Query cannot be empty" error before the core
runs; the core `get_answer`, called directly on a blank query, instead
returns the normal response "Please enter a valid query." with the state
unchanged.  (A missing request body is a further hard boundary error,
per the counterexample.) -/
theorem c7_empty_query :
    (∀ (env : Env) (sess : Option PyStr) (fresh : PyStr) (st : SysState)
        (d : AskData) (q : PyStr), d.query = some q → pyStrip q = [] →
        ask env sess fresh st (some d)
          = AskOutcome.clientError 400 (lit "Query cannot be empty"))
    ∧ (∀ (env : Env) (q uid : PyStr) (st : SysState), cache_key_of q = [] →
        get_answer env q uid st = (lit "Please enter a valid query.", st)) := by
  constructor
  · intro env sess fresh st d q hd hq
    simp [ask, hd, hq]
  · intro env q uid st hq
    exact get_answer_blank env q uid st hq

/-- C7 witness: the whitespace-only query `"   "`. -/
theorem c7_witness :
    ask baseEnv none (lit "u") emptyState (some ⟨some (lit "   "), none⟩)
        = AskOutcome.clientError 400 (lit "Query cannot be empty")
      ∧ get_answer baseEnv (lit "   ") (lit "u") emptyState
        = (lit "Please enter a valid query.", emptyState) :=
  ⟨c7_empty_query.1 baseEnv none (lit "u") emptyState ⟨some (lit "   "), none⟩
      (lit "   ") rfl (by decide),
    c7_empty_query.2 baseEnv (lit "   ") (lit "u") emptyState (by decide)⟩

/-! ## Claim C8: canned conversational short-circuit -/

/-- The fixed phrase table of the canned conversational intents: every
exact-match key of the five tables plus the "time" and "date" markers. -/
def cannedPhrases : List PyStr :=
  (greetingsTable ++ farewellsTable ++ thanksTable ++ affirmationsTable
    ++ helpTable).map (·.1) ++ [lit "time", lit "date"]

/-- C8 counterexample: the query "bedtime" is not a phrase of the fixed
table, yet `get_short_answer` answers it with the current time — the
"time"/"date" intents are matched by substring containment, not by
exact-phrase lookup. -/
theorem c8_counterexample :
    get_short_answer baseEnv (lit "bedtime") = some (lit "12:00 PM")
      ∧ cannedPhrases.contains (lit "bedtime") = false := by
  decide

/-- C8 (amended): greetings, farewells, thanks, affirmations and help
phrases are matched by exact-phrase lookup, while "time"/"date" are
matched by substring containment; a matched canned intent is answered
before the routing cascade with a literal answer, and the system state —
response cache, memo cache and history store alike — is left completely
unchanged (nothing is cached or recorded in history). -/
theorem c8_short_circuit (env : Env) (q uid : PyStr) (st : SysState) (a : PyStr)
    (hq : cache_key_of q ≠ [])
    (hmiss : alookup st.cache (cache_key_of q) = none)
    (hshort : get_short_answer env q = some a) :
    get_answer env q uid st = (a, st) :=
  get_answer_short env q uid st a hq hmiss hshort

/-- C8 witness: the greeting "hi" is answered from the phrase table with
the state untouched. -/
theorem c8_witness :
    get_answer baseEnv (lit "hi") (lit "u") emptyState
      = (lit "Hello! How can I help you today?", emptyState) :=
  c8_short_circuit baseEnv (lit "hi") (lit "u") emptyState
    (lit "Hello! How can I help you today?") (by decide) (by decide) (by decide)







